import Mathlib

/-!
Verification of `ipsa_sched.c`.

A shallow embedding of `src/ipsa_sched.c` (a FreeRTOS demo with four periodic
producer tasks, one auto-reload software timer and one queue-receiving
dispatcher task), followed by theorems about it.

Conventions of the embedding:

* C `int` / `long int` values are mathematical integers (`Int`); every signed
  arithmetic operation of the Task 3 and Task 4 handlers is *checked*: a result
  outside the range of the type is undefined behaviour in C and is modelled by
  `none`.
* Array reads are checked in the same way (`readInt`).
* A local variable without initialiser (`int m`) is an `Option Int`, `none`
  meaning "never assigned".
* The `while` loop of Task 4 is run with fuel; running out of fuel is a
  distinct outcome (`Outcome.outOfFuel`), never confused with a result.
* `TickType_t` arithmetic is natural-number arithmetic modulo `2 ^ w`.
-/

namespace IpsaSched

/-! ## Constants of the source (lines 39-67) -/

/-- Line 42: `mainQUEUE_RECEIVE_TASK_PRIORITY`, relative to `tskIDLE_PRIORITY`
(a kernel constant, taken as a parameter). -/
def mainQUEUE_RECEIVE_TASK_PRIORITY (tskIDLE_PRIORITY : Nat) : Nat := tskIDLE_PRIORITY + 5

/-- Line 44. -/
def mainQUEUE_SEND_TASK1_PRIORITY (tskIDLE_PRIORITY : Nat) : Nat := tskIDLE_PRIORITY + 1
/-- Line 45. -/
def mainQUEUE_SEND_TASK2_PRIORITY (tskIDLE_PRIORITY : Nat) : Nat := tskIDLE_PRIORITY + 2
/-- Line 46. -/
def mainQUEUE_SEND_TASK3_PRIORITY (tskIDLE_PRIORITY : Nat) : Nat := tskIDLE_PRIORITY + 3
/-- Line 47. -/
def mainQUEUE_SEND_TASK4_PRIORITY (tskIDLE_PRIORITY : Nat) : Nat := tskIDLE_PRIORITY + 4

/-- Lines 52-56: the send periods. The kernel macro `pdMS_TO_TICKS` is not part
of the source file and is taken as a parameter (a map from milliseconds to
ticks). -/
def mainTASK1_SEND_FREQUENCY_MS (pdMS_TO_TICKS : Nat → Nat) : Nat := pdMS_TO_TICKS 350
/-- Line 53. -/
def mainTASK2_SEND_FREQUENCY_MS (pdMS_TO_TICKS : Nat → Nat) : Nat := pdMS_TO_TICKS 350
/-- Line 54. -/
def mainTASK3_SEND_FREQUENCY_MS (pdMS_TO_TICKS : Nat → Nat) : Nat := pdMS_TO_TICKS 600
/-- Line 55. -/
def mainTASK4_SEND_FREQUENCY_MS (pdMS_TO_TICKS : Nat → Nat) : Nat := pdMS_TO_TICKS 850
/-- Line 56. -/
def mainTIMER_SEND_FREQUENCY_MS (pdMS_TO_TICKS : Nat → Nat) : Nat := pdMS_TO_TICKS 2400

/-- Line 59. -/
def mainQUEUE_LENGTH : Nat := 5

/-- Line 63. -/
def mainVALUE_SENT_FROM_TASK1 : Nat := 100
/-- Line 64. -/
def mainVALUE_SENT_FROM_TASK2 : Nat := 200
/-- Line 65. -/
def mainVALUE_SENT_FROM_TASK3 : Nat := 300
/-- Line 66. -/
def mainVALUE_SENT_FROM_TASK4 : Nat := 400
/-- Line 67. -/
def mainVALUE_SENT_FROM_TIMER : Nat := 10

/-! ## Checked signed arithmetic and checked array reads -/

/-- Smallest value of a `w`-bit two's complement integer. -/
def signedMin (w : Nat) : Int := -(2 ^ (w - 1) : Int)

/-- Largest value of a `w`-bit two's complement integer. -/
def signedMax (w : Nat) : Int := (2 ^ (w - 1) : Int) - 1

/-- A signed C arithmetic result of width `w`: the exact value when it is
representable, `none` (undefined behaviour) when it is not. -/
def checked (w : Nat) (v : Int) : Option Int :=
  if signedMin w ≤ v ∧ v ≤ signedMax w then some v else none

/-- The read `tableau[i]`: `none` when `i` is not a valid index. -/
def readInt (tableau : List Int) (i : Int) : Option Int :=
  if 0 ≤ i then tableau[i.toNat]? else none

/-! ## Task 4 : the table search (lines 227-257) -/

/-- The local variables of the Task 4 branch that the loop changes. `m` is
declared without initialiser (line 235): `none` until line 241 assigns it. -/
structure SearchState where
  low : Int
  high : Int
  check : Int
  m : Option Int
  deriving DecidableEq

/-- Line 239: `int milieu = low + (high - low) / 2;` on exact integers (C
division truncates towards zero). -/
def milieuOf (s : SearchState) : Int := s.low + Int.tdiv (s.high - s.low) 2

/-- One execution of the loop body, lines 239-248. Note the bracing of the
source: only `m = milieu;` is guarded by the first `if`; `check = 0;`
(line 242) is executed in every iteration. -/
def loopBody (tableau : List Int) (x : Int) (s : SearchState) : Option SearchState :=
  (checked 32 (s.high - s.low)).bind fun d =>
  (checked 32 (Int.tdiv d 2)).bind fun h =>
  (checked 32 (s.low + h)).bind fun milieu =>
  (readInt tableau milieu).bind fun t =>
    let m := if t = x then some milieu else s.m
    let check := 0
    if t < x then
      (checked 32 (milieu + 1)).bind fun low =>
        some { low := low, high := s.high, check := check, m := m }
    else
      (checked 32 (milieu - 1)).bind fun high =>
        some { low := s.low, high := high, check := check, m := m }

/-- How a fuelled run ends. -/
inductive Outcome (α : Type) where
  | done (a : α)
  | undefinedBehaviour
  | outOfFuel
  deriving DecidableEq

/-- The loop `while (low <= high) { ... }` of lines 237-249. -/
def searchLoop (tableau : List Int) (x : Int) : Nat → SearchState → Outcome SearchState
  | 0, s => if s.low ≤ s.high then Outcome.outOfFuel else Outcome.done s
  | fuel + 1, s =>
    if s.low ≤ s.high then
      match loopBody tableau x s with
      | none => Outcome.undefinedBehaviour
      | some s' => searchLoop tableau x fuel s'
    else Outcome.done s

/-- The states in which the loop body is entered, in order: at each of them the
source evaluates `milieu` and reads `tableau[milieu]`. -/
def searchTrace (tableau : List Int) (x : Int) : Nat → SearchState → List SearchState
  | 0, _ => []
  | fuel + 1, s =>
    if s.low ≤ s.high then
      s :: (match loopBody tableau x s with
            | none => []
            | some s' => searchTrace tableau x fuel s')
    else []

/-- What the Task 4 branch prints after the loop (lines 252-256). -/
inductive Task4Report where
  /-- Line 253: "La valeur n'est pas dans le tableau". -/
  | notFound
  /-- Line 256: the value of `m` is printed; `none` is an `m` that was never
  assigned. -/
  | foundAt (m : Option Int)
  deriving DecidableEq

/-- Lines 230-234: `n`, `low = 0`, `high = n - 1`, `check = -1`, `m`
unassigned. `none` when the length does not fit an `int`. -/
def searchInit (tableau : List Int) : Option SearchState :=
  (checked 32 (tableau.length : Int)).bind fun n =>
  (checked 32 (n - 1)).bind fun high =>
    some { low := 0, high := high, check := -1, m := none }

/-- Lines 252-256. -/
def searchReport (s : SearchState) : Task4Report :=
  if s.check = -1 then Task4Report.notFound else Task4Report.foundAt s.m

/-- The Task 4 branch for an arbitrary array and target. -/
def task4Search (fuel : Nat) (tableau : List Int) (x : Int) : Outcome Task4Report :=
  match searchInit tableau with
  | none => Outcome.undefinedBehaviour
  | some s0 =>
    match searchLoop tableau x fuel s0 with
    | Outcome.done s => Outcome.done (searchReport s)
    | Outcome.undefinedBehaviour => Outcome.undefinedBehaviour
    | Outcome.outOfFuel => Outcome.outOfFuel

/-- Line 229: the array of the source. -/
def tableau : List Int :=
  [1, 2, 3, 4, 5, 6, 7, 8, 9, 10, 11, 12, 13, 14, 15, 16, 17, 18, 19, 20, 21, 22, 23, 24, 25,
   26, 27, 28, 29, 30, 31, 32, 33, 34, 35, 36, 37, 38, 39, 40, 41, 42, 43, 44, 45, 46, 47, 48,
   49, 50, 51]

/-- The Task 4 branch as written: the array of line 229 and the target
`x = 37` of line 231. -/
def task4 (fuel : Nat) : Outcome Task4Report := task4Search fuel tableau 37

/-! ## Task 3 : the multiplication (lines 217-224) -/

/-- Lines 219-222: `long int A = 642837192; long int B = 313193871;
result = A * B;` for a `long int` of `w` bits. `none` is signed overflow. -/
def task3Multiply (w : Nat) : Option Int :=
  let A : Int := 642837192
  let B : Int := 313193871
  checked w (A * B)

/-! ## The dispatcher `prvQueueReceiveTask` (lines 195-271) -/

/-- The branches of the `if` / `else if` chain of lines 204-269. -/
inductive Handler where
  /-- Lines 204-207: prints "Working". -/
  | task1Working
  /-- Lines 209-215: the Fahrenheit to Celsius conversion. -/
  | task2Conversion
  /-- Lines 217-224: the multiplication. -/
  | task3Multiplication
  /-- Lines 227-257: the table search. -/
  | task4Search
  /-- Lines 262-265: prints "HyperPeriod reached". -/
  | timerHyperPeriod
  /-- Lines 266-269: prints "Unexpected message". -/
  | unexpectedMessage
  deriving DecidableEq

/-- The chain of comparisons of lines 204, 209, 217, 227, 262 and the final
`else` of line 266, in the order of the source. -/
def selectHandler (ulReceivedValue : Nat) : Handler :=
  if ulReceivedValue = mainVALUE_SENT_FROM_TASK1 then Handler.task1Working
  else if ulReceivedValue = mainVALUE_SENT_FROM_TASK2 then Handler.task2Conversion
  else if ulReceivedValue = mainVALUE_SENT_FROM_TASK3 then Handler.task3Multiplication
  else if ulReceivedValue = mainVALUE_SENT_FROM_TASK4 then Handler.task4Search
  else if ulReceivedValue = mainVALUE_SENT_FROM_TIMER then Handler.timerHyperPeriod
  else Handler.unexpectedMessage

/-- The only variable of `prvQueueReceiveTask` that lives across iterations of
its `for( ; ; )` loop (line 197). -/
structure ReceiveTaskState where
  ulReceivedValue : Nat
  deriving DecidableEq

/-- One iteration of the `for( ; ; )` loop of lines 199-270 in which
`xQueueReceive` delivers the value `v`: line 202 stores `v` into
`ulReceivedValue`, then the chain runs. The result is the state at the
next `xQueueReceive` and the handlers that ran, in order. -/
def receiveIteration (_s : ReceiveTaskState) (v : Nat) : ReceiveTaskState × List Handler :=
  let s' : ReceiveTaskState := { ulReceivedValue := v }
  (s', [selectHandler s'.ulReceivedValue])

/-- The dispatcher fed with a sequence of received values. -/
def receiveTask : ReceiveTaskState → List Nat → ReceiveTaskState × List Handler
  | s, [] => (s, [])
  | s, v :: rest =>
    let r := receiveIteration s v
    let r' := receiveTask r.1 rest
    (r'.1, r.2 ++ r'.2)

/-! ## The periodic producers (lines 134-191) -/

/-- Modelled from the spec: the kernel call
`vTaskDelayUntil( &xNextWakeTime, xBlockTime )`, whose code is not part of the
source file. Section 4.2 of the specification: "`next_wake += period`; suspend
the calling context until `next_wake` is reached (an absolute-time sleep, not a
relative one)". The value returned is the new content of `xNextWakeTime`, the
absolute wake time requested, on a `w`-bit tick counter. -/
def vTaskDelayUntil (w : Nat) (xNextWakeTime xBlockTime : Nat) : Nat :=
  (xNextWakeTime + xBlockTime) % 2 ^ w

/-- Modelled from the spec: the kernel call `xQueueSend( xQueue, &v, 0U )`,
whose code is not part of the source file. Section 4.1 of the specification:
`try_send` with a zero timeout copies the item into the queue if there is
space and returns false on overflow, the message being discarded. -/
def xQueueSend (queue : List Nat) (item : Nat) : List Nat × Bool :=
  if queue.length < mainQUEUE_LENGTH then (queue ++ [item], true) else (queue, false)

/-- What the rest of the system contributes to one iteration of a producer:
the tick count at which the iteration calls `vTaskDelayUntil` (it grows with
the time everything before took) and the content of the queue at the moment
of the send. -/
structure IterationEnv where
  tickAtCall : Nat
  queueAtSend : List Nat
  deriving DecidableEq

/-- What one iteration of a producer did. -/
structure ProducerEvent where
  calledAt : Nat
  requestedWake : Nat
  sent : Bool
  queueAfter : List Nat
  deriving DecidableEq

/-- One iteration of the `for( ; ; )` loop shared by the four producers (lines
143-144, 157-158, 173-174, 188-189): the new `xNextWakeTime` and the event. -/
def producerIteration (w xBlockTime ulValueToSend xNextWakeTime : Nat) (env : IterationEnv) :
    Nat × ProducerEvent :=
  let wake := vTaskDelayUntil w xNextWakeTime xBlockTime
  let r := xQueueSend env.queueAtSend ulValueToSend
  (wake, { calledAt := env.tickAtCall, requestedWake := wake, sent := r.2, queueAfter := r.1 })

/-- The producer loop run for as many iterations as there are environments. -/
def producerLoop (w xBlockTime ulValueToSend : Nat) : Nat → List IterationEnv → List ProducerEvent
  | _, [] => []
  | xNextWakeTime, env :: rest =>
    let r := producerIteration w xBlockTime ulValueToSend xNextWakeTime env
    r.2 :: producerLoop w xBlockTime ulValueToSend r.1 rest

/-- Lines 134-146. `t0` is the value returned by `xTaskGetTickCount()` at
line 140. -/
def prvQueueSendTask1 (w : Nat) (pdMS_TO_TICKS : Nat → Nat) (t0 : Nat)
    (envs : List IterationEnv) : List ProducerEvent :=
  producerLoop w (mainTASK1_SEND_FREQUENCY_MS pdMS_TO_TICKS) mainVALUE_SENT_FROM_TASK1 t0 envs

/-- Lines 148-160. -/
def prvQueueSendTask2 (w : Nat) (pdMS_TO_TICKS : Nat → Nat) (t0 : Nat)
    (envs : List IterationEnv) : List ProducerEvent :=
  producerLoop w (mainTASK2_SEND_FREQUENCY_MS pdMS_TO_TICKS) mainVALUE_SENT_FROM_TASK2 t0 envs

/-- Lines 163-176. -/
def prvQueueSendTask3 (w : Nat) (pdMS_TO_TICKS : Nat → Nat) (t0 : Nat)
    (envs : List IterationEnv) : List ProducerEvent :=
  producerLoop w (mainTASK3_SEND_FREQUENCY_MS pdMS_TO_TICKS) mainVALUE_SENT_FROM_TASK3 t0 envs

/-- Lines 179-191. -/
def prvQueueSendTask4 (w : Nat) (pdMS_TO_TICKS : Nat → Nat) (t0 : Nat)
    (envs : List IterationEnv) : List ProducerEvent :=
  producerLoop w (mainTASK4_SEND_FREQUENCY_MS pdMS_TO_TICKS) mainVALUE_SENT_FROM_TASK4 t0 envs

/-! ## The producers as created by `ipsa_sched` (lines 105-108) -/

/-- The four producer tasks. -/
inductive Producer where
  | task1
  | task2
  | task3
  | task4
  deriving DecidableEq

/-- The list of the four producers, in the order of their creation. -/
def Producer.all : List Producer :=
  [Producer.task1, Producer.task2, Producer.task3, Producer.task4]

/-- The priority argument of the `xTaskCreate` call of each producer, lines
105-108. -/
def Producer.priority (tskIDLE_PRIORITY : Nat) : Producer → Nat
  | Producer.task1 => mainQUEUE_SEND_TASK1_PRIORITY tskIDLE_PRIORITY
  | Producer.task2 => mainQUEUE_SEND_TASK2_PRIORITY tskIDLE_PRIORITY
  | Producer.task3 => mainQUEUE_SEND_TASK3_PRIORITY tskIDLE_PRIORITY
  | Producer.task4 => mainQUEUE_SEND_TASK4_PRIORITY tskIDLE_PRIORITY

/-- The `xBlockTime` of each producer, lines 137, 151, 166 and 182. -/
def Producer.period (pdMS_TO_TICKS : Nat → Nat) : Producer → Nat
  | Producer.task1 => mainTASK1_SEND_FREQUENCY_MS pdMS_TO_TICKS
  | Producer.task2 => mainTASK2_SEND_FREQUENCY_MS pdMS_TO_TICKS
  | Producer.task3 => mainTASK3_SEND_FREQUENCY_MS pdMS_TO_TICKS
  | Producer.task4 => mainTASK4_SEND_FREQUENCY_MS pdMS_TO_TICKS

/-- The period given to `xTimerCreate` at line 110 (`xTimerPeriod`, line 96). -/
def xTimerPeriod (pdMS_TO_TICKS : Nat → Nat) : Nat := mainTIMER_SEND_FREQUENCY_MS pdMS_TO_TICKS

/-- The tick `t` is one of the wake times `t0 + n * period`, `n ≥ 1`, of a
producer started at `t0`. -/
def isWakeTime (period t0 t : Nat) : Prop :=
  ∃ n : Nat, 1 ≤ n ∧ t = t0 + n * period

/-! ## Auxiliary facts about the checked operations -/

theorem signedMin_32 : signedMin 32 = -2147483648 := by
  norm_num [signedMin]

theorem signedMax_32 : signedMax 32 = 2147483647 := by
  norm_num [signedMax]

theorem checked_32_eq_some {v : Int} (h1 : -2147483648 ≤ v) (h2 : v ≤ 2147483647) :
    checked 32 v = some v := by
  unfold checked
  rw [signedMin_32, signedMax_32]
  exact if_pos ⟨h1, h2⟩

theorem checked_eq_some_iff {w : Nat} {v r : Int} :
    checked w v = some r ↔ (signedMin w ≤ v ∧ v ≤ signedMax w) ∧ v = r := by
  unfold checked
  split_ifs with h
  · simp [h]
  · simp [h]

theorem readInt_eq_some_iff {tableau : List Int} {i t : Int} :
    readInt tableau i = some t ↔ 0 ≤ i ∧ tableau[i.toNat]? = some t := by
  unfold readInt
  split_ifs with h
  · simp [h]
  · simp [h]

theorem readInt_in_bounds {tableau : List Int} {i : Int} (h0 : 0 ≤ i)
    (h1 : i < tableau.length) : ∃ t, readInt tableau i = some t ∧ t ∈ tableau := by
  have hlt : i.toNat < tableau.length := by omega
  refine ⟨tableau[i.toNat], ?_, List.getElem_mem hlt⟩
  rw [readInt_eq_some_iff]
  exact ⟨h0, List.getElem?_eq_getElem hlt⟩

theorem tdiv_two_of_nonneg {d : Int} (h : 0 ≤ d) : Int.tdiv d 2 = d / 2 :=
  Int.tdiv_eq_ediv h (by decide)

/-- Under the loop invariant `0 ≤ low ≤ high < n ≤ INT_MAX` the body runs
without undefined behaviour, and its effect is the one of lines 239-248. -/
theorem loopBody_spec (tableau : List Int) (x : Int) (s : SearchState)
    (hlen : (tableau.length : Int) ≤ 2147483647) (h0 : 0 ≤ s.low) (hg : s.low ≤ s.high)
    (hh : s.high < tableau.length) :
    ∃ t s', readInt tableau (milieuOf s) = some t ∧ t ∈ tableau ∧
      loopBody tableau x s = some s' ∧ s'.check = 0 ∧
      s'.m = (if t = x then some (milieuOf s) else s.m) ∧
      ((t < x ∧ s'.low = milieuOf s + 1 ∧ s'.high = s.high) ∨
       (¬ t < x ∧ s'.low = s.low ∧ s'.high = milieuOf s - 1)) := by
  have hd : Int.tdiv (s.high - s.low) 2 = (s.high - s.low) / 2 :=
    tdiv_two_of_nonneg (by omega)
  have hm : milieuOf s = s.low + (s.high - s.low) / 2 := by
    unfold milieuOf; rw [hd]
  obtain ⟨t, ht, hmem⟩ := @readInt_in_bounds tableau (milieuOf s)
    (by omega) (by omega)
  have e1 : checked 32 (s.high - s.low) = some (s.high - s.low) :=
    checked_32_eq_some (by omega) (by omega)
  have e2 : checked 32 (Int.tdiv (s.high - s.low) 2) = some (Int.tdiv (s.high - s.low) 2) :=
    checked_32_eq_some (by omega) (by omega)
  have e3 : checked 32 (s.low + Int.tdiv (s.high - s.low) 2) = some (milieuOf s) :=
    checked_32_eq_some (by omega) (by omega)
  have e4 : checked 32 (milieuOf s + 1) = some (milieuOf s + 1) :=
    checked_32_eq_some (by omega) (by omega)
  have e5 : checked 32 (milieuOf s - 1) = some (milieuOf s - 1) :=
    checked_32_eq_some (by omega) (by omega)
  by_cases hlt : t < x
  · refine ⟨t, { low := milieuOf s + 1, high := s.high, check := 0,
                 m := if t = x then some (milieuOf s) else s.m }, ht, hmem, ?_, rfl, rfl,
              Or.inl ⟨hlt, rfl, rfl⟩⟩
    simp [loopBody, e1, e2, e3, e4, ht, hlt]
  · refine ⟨t, { low := s.low, high := milieuOf s - 1, check := 0,
                 m := if t = x then some (milieuOf s) else s.m }, ht, hmem, ?_, rfl, rfl,
              Or.inr ⟨hlt, rfl, rfl⟩⟩
    simp [loopBody, e1, e2, e3, e5, ht, hlt]

/-- Whenever the body completes an iteration entered with `low ≤ high`, the
quantity `high - low` has strictly decreased (no assumption on the array). -/
theorem loopBody_decreases (tableau : List Int) (x : Int) (s s' : SearchState)
    (hg : s.low ≤ s.high) (hb : loopBody tableau x s = some s') :
    s'.high - s'.low < s.high - s.low := by
  have hd : Int.tdiv (s.high - s.low) 2 = (s.high - s.low) / 2 :=
    tdiv_two_of_nonneg (by omega)
  unfold loopBody at hb
  simp only [Option.bind_eq_some, checked_eq_some_iff] at hb
  obtain ⟨d, ⟨-, rfl⟩, h, ⟨-, rfl⟩, milieu, ⟨-, rfl⟩, t, -, hb⟩ := hb
  by_cases hlt : t < x
  · simp only [hlt, if_true, Option.bind_eq_some, checked_eq_some_iff] at hb
    obtain ⟨low, ⟨-, rfl⟩, hb⟩ := hb
    cases hb
    simp only
    omega
  · simp only [hlt, if_false, Option.bind_eq_some, checked_eq_some_iff] at hb
    obtain ⟨high, ⟨-, rfl⟩, hb⟩ := hb
    cases hb
    simp only
    omega

/-- With fuel at least `high - low + 1` the loop never runs out of fuel,
whatever the array holds. -/
theorem searchLoop_ne_outOfFuel (tableau : List Int) (x : Int) :
    ∀ (fuel : Nat) (s : SearchState), (s.high - s.low + 1).toNat ≤ fuel →
      searchLoop tableau x fuel s ≠ Outcome.outOfFuel := by
  intro fuel
  induction fuel with
  | zero =>
    intro s hf
    have hg : ¬ s.low ≤ s.high := by omega
    simp [searchLoop, hg]
  | succ k ih =>
    intro s hf
    unfold searchLoop
    by_cases hg : s.low ≤ s.high
    · rw [if_pos hg]
      cases hb : loopBody tableau x s with
      | none => simp
      | some s1 =>
        have hdec := loopBody_decreases tableau x s s1 hg hb
        exact ih s1 (by omega)
    · rw [if_neg hg]
      simp

/-- A result obtained with some fuel is obtained with any larger fuel. -/
theorem searchLoop_fuel_mono (tableau : List Int) (x : Int) :
    ∀ (fuel : Nat) (s r : SearchState), searchLoop tableau x fuel s = Outcome.done r →
      ∀ extra : Nat, searchLoop tableau x (fuel + extra) s = Outcome.done r := by
  intro fuel
  induction fuel with
  | zero =>
    intro s r h extra
    by_cases hg : s.low ≤ s.high
    · simp [searchLoop, hg] at h
    · cases extra with
      | zero => exact h
      | succ e =>
        have h0 : searchLoop tableau x 0 s = Outcome.done s := by simp [searchLoop, hg]
        have h1 : searchLoop tableau x (0 + (e + 1)) s = Outcome.done s := by
          rw [Nat.zero_add]; simp [searchLoop, hg]
        rw [h1, ← h, h0]
  | succ k ih =>
    intro s r h extra
    have e : k + 1 + extra = (k + extra) + 1 := by omega
    rw [e]
    unfold searchLoop at h ⊢
    by_cases hg : s.low ≤ s.high
    · rw [if_pos hg] at h ⊢
      cases hb : loopBody tableau x s with
      | none => rw [hb] at h; simp at h
      | some s1 =>
        rw [hb] at h
        exact ih s1 r h extra
    · rw [if_neg hg] at h ⊢
      exact h

/-- The loop under its invariant: it ends in a state with `high < low`; if at
least one iteration ran, `check` is 0 at the end; if the target does not occur
in the array, `m` is left as it was; and a loop that is not entered changes
nothing. -/
theorem searchLoop_spec (tableau : List Int) (x : Int)
    (hlen : (tableau.length : Int) ≤ 2147483647) :
    ∀ (fuel : Nat) (s : SearchState), 0 ≤ s.low → s.high < tableau.length →
      (s.high - s.low + 1).toNat ≤ fuel →
      ∃ s', searchLoop tableau x fuel s = Outcome.done s' ∧ s'.high < s'.low ∧
        (s.low ≤ s.high → s'.check = 0) ∧ (x ∉ tableau → s'.m = s.m) ∧
        (¬ s.low ≤ s.high → s' = s) := by
  intro fuel
  induction fuel with
  | zero =>
    intro s _ _ hf
    have hg : ¬ s.low ≤ s.high := by omega
    refine ⟨s, by simp [searchLoop, hg], by omega, fun h => absurd h hg, fun _ => rfl,
      fun _ => rfl⟩
  | succ k ih =>
    intro s h0 hh hf
    by_cases hg : s.low ≤ s.high
    · obtain ⟨t, s1, -, hmem, hb, hc, hm, hcase⟩ := loopBody_spec tableau x s hlen h0 hg hh
      have hdec := loopBody_decreases tableau x s s1 hg hb
      have hmid : Int.tdiv (s.high - s.low) 2 = (s.high - s.low) / 2 :=
        tdiv_two_of_nonneg (by omega)
      have hmil : milieuOf s = s.low + (s.high - s.low) / 2 := by
        unfold milieuOf; rw [hmid]
      have h0' : 0 ≤ s1.low := by
        rcases hcase with ⟨-, hl, -⟩ | ⟨-, hl, -⟩ <;> omega
      have hh' : s1.high < tableau.length := by
        rcases hcase with ⟨-, -, hl⟩ | ⟨-, -, hl⟩ <;> omega
      obtain ⟨s2, hrun, hend, hchk, hmm, hsame⟩ := ih s1 h0' hh' (by omega)
      refine ⟨s2, ?_, hend, ?_, ?_, fun h => absurd hg h⟩
      · unfold searchLoop
        rw [if_pos hg, hb]
        exact hrun
      · intro _
        by_cases hg1 : s1.low ≤ s1.high
        · exact hchk hg1
        · rw [hsame hg1]; exact hc
      · intro hx
        have htx : t ≠ x := fun e => hx (e ▸ hmem)
        rw [hmm hx, hm, if_neg htx]
    · refine ⟨s, by simp [searchLoop, hg], by omega, fun h => absurd h hg, fun _ => rfl,
        fun _ => rfl⟩

/-- Every state in which the body is entered satisfies the loop invariant, and
carries the initial `m` when the target does not occur in the array. -/
theorem searchTrace_inv (tableau : List Int) (x : Int)
    (hlen : (tableau.length : Int) ≤ 2147483647) :
    ∀ (fuel : Nat) (s : SearchState), 0 ≤ s.low → s.high < tableau.length →
      ∀ r ∈ searchTrace tableau x fuel s,
        0 ≤ r.low ∧ r.low ≤ r.high ∧ r.high < tableau.length ∧
        (x ∉ tableau → r.m = s.m) := by
  intro fuel
  induction fuel with
  | zero =>
    intro s _ _ r hr
    simp [searchTrace] at hr
  | succ k ih =>
    intro s h0 hh r hr
    unfold searchTrace at hr
    by_cases hg : s.low ≤ s.high
    · rw [if_pos hg] at hr
      obtain ⟨t, s1, -, hmem, hb, -, hm, hcase⟩ := loopBody_spec tableau x s hlen h0 hg hh
      rw [hb] at hr
      rcases List.mem_cons.mp hr with rfl | hr'
      · exact ⟨h0, hg, hh, fun _ => rfl⟩
      · have hmid : Int.tdiv (s.high - s.low) 2 = (s.high - s.low) / 2 :=
          tdiv_two_of_nonneg (by omega)
        have hmil : milieuOf s = s.low + (s.high - s.low) / 2 := by
          unfold milieuOf; rw [hmid]
        have h0' : 0 ≤ s1.low := by
          rcases hcase with ⟨-, hl, -⟩ | ⟨-, hl, -⟩ <;> omega
        have hh' : s1.high < tableau.length := by
          rcases hcase with ⟨-, -, hl⟩ | ⟨-, -, hl⟩ <;> omega
        obtain ⟨a, b, c, d⟩ := ih s1 h0' hh' r hr'
        refine ⟨a, b, c, fun hx => ?_⟩
        have htx : t ≠ x := fun e => hx (e ▸ hmem)
        rw [d hx, hm, if_neg htx]
    · rw [if_neg hg] at hr
      simp at hr

/-- The initial state of the search for an array whose length fits an `int`. -/
theorem searchInit_eq (tableau : List Int) (hlen : (tableau.length : Int) ≤ 2147483647) :
    searchInit tableau =
      some { low := 0, high := (tableau.length : Int) - 1, check := -1, m := none } := by
  unfold searchInit
  rw [checked_32_eq_some (by omega) hlen]
  simp only [Option.some_bind]
  rw [checked_32_eq_some (by omega) (by omega)]
  rfl

/-- A report obtained with some fuel is obtained with any larger fuel. -/
theorem task4Search_fuel_mono (tableau : List Int) (x : Int) (fuel extra : Nat)
    (r : Task4Report) (h : task4Search fuel tableau x = Outcome.done r) :
    task4Search (fuel + extra) tableau x = Outcome.done r := by
  unfold task4Search at h ⊢
  cases hi : searchInit tableau with
  | none => rw [hi] at h; simp at h
  | some s0 =>
    rw [hi] at h
    simp only at h ⊢
    cases hl : searchLoop tableau x fuel s0 with
    | done sEnd =>
      rw [hl] at h
      rw [searchLoop_fuel_mono tableau x fuel s0 sEnd hl extra]
      exact h
    | undefinedBehaviour => rw [hl] at h; simp at h
    | outOfFuel => rw [hl] at h; simp at h

/-- When the body reads the target itself, the loop does not exit: the body
still executes `high = milieu - 1` and leaves `low` alone. -/
theorem loopBody_on_match (tableau : List Int) (x : Int) (s s' : SearchState)
    (hb : loopBody tableau x s = some s') (hr : readInt tableau (milieuOf s) = some x) :
    s'.low = s.low ∧ s'.high = milieuOf s - 1 ∧ s'.m = some (milieuOf s) := by
  unfold loopBody at hb
  simp only [Option.bind_eq_some, checked_eq_some_iff] at hb
  obtain ⟨d, ⟨-, rfl⟩, h, ⟨-, rfl⟩, milieu, ⟨-, rfl⟩, t, ht, hb⟩ := hb
  have hm : milieuOf s = s.low + Int.tdiv (s.high - s.low) 2 := rfl
  rw [hm, ht] at hr
  cases hr
  simp only [lt_irrefl, if_false, if_true, Option.bind_eq_some, checked_eq_some_iff] at hb
  obtain ⟨high, ⟨-, rfl⟩, hb⟩ := hb
  cases hb
  exact ⟨rfl, rfl, rfl⟩

/-- For a non-empty array whose length fits an `int` and enough fuel, the loop
ends with `check = 0`, so the branch of line 256 prints `m`; `m` is still
unassigned when the target does not occur in the array. -/
theorem task4Search_nonempty (tableau : List Int) (x : Int) (fuel : Nat)
    (hne : tableau ≠ []) (hlen : (tableau.length : Int) ≤ 2147483647)
    (hfuel : tableau.length ≤ fuel) :
    ∃ sEnd, searchLoop tableau x fuel
        { low := 0, high := (tableau.length : Int) - 1, check := -1, m := none } =
          Outcome.done sEnd ∧
      sEnd.check = 0 ∧ (x ∉ tableau → sEnd.m = none) ∧
      task4Search fuel tableau x = Outcome.done (Task4Report.foundAt sEnd.m) := by
  have hpos : 0 < tableau.length := List.length_pos.mpr hne
  obtain ⟨sEnd, hrun, -, hchk, hm, -⟩ := searchLoop_spec tableau x hlen fuel
    { low := 0, high := (tableau.length : Int) - 1, check := -1, m := none }
    (le_refl _) (by simp) (by simp only; omega)
  have hc : sEnd.check = 0 := hchk (by simp only; omega)
  refine ⟨sEnd, hrun, hc, hm, ?_⟩
  unfold task4Search
  rw [searchInit_eq tableau hlen]
  simp only [hrun, searchReport, hc]
  rfl

theorem producerLoop_length (w xBlockTime ulValueToSend : Nat) :
    ∀ (envs : List IterationEnv) (wake0 : Nat),
      (producerLoop w xBlockTime ulValueToSend wake0 envs).length = envs.length := by
  intro envs
  induction envs with
  | nil => intro wake0; rfl
  | cons env rest ih =>
    intro wake0
    simp [producerLoop, ih]

/-- The wake time requested in iteration `i + 1` of the producer loop. -/
theorem producerLoop_wake (w xBlockTime ulValueToSend : Nat) :
    ∀ (envs : List IterationEnv) (wake0 i : Nat), i < envs.length →
      ((producerLoop w xBlockTime ulValueToSend wake0 envs).map
          ProducerEvent.requestedWake)[i]? =
        some ((wake0 + (i + 1) * xBlockTime) % 2 ^ w) := by
  intro envs
  induction envs with
  | nil => intro wake0 i hi; simp at hi
  | cons env rest ih =>
    intro wake0 i hi
    cases i with
    | zero => simp [producerLoop, producerIteration, vTaskDelayUntil]
    | succ j =>
      have hj : j < rest.length := by simpa using hi
      simp only [producerLoop, List.map_cons, List.getElem?_cons_succ]
      rw [ih _ j hj]
      simp only [producerIteration, vTaskDelayUntil, Nat.mod_add_mod]
      congr 2
      ring

/-! ## Task 4 : the search on the array of the source -/

/-- C1. Task 4, target present: on the array `[1, ..., 51]` of line 229, for
every target `x` with `1 ≤ x ≤ 51` and any fuel of at least 6 iterations, the
handler runs without undefined behaviour and takes the branch of line 256
(`check != -1`) with `m = x - 1`; the handler as written (`x = 37`) prints
index 36. -/
theorem task4_present_target_found (x : Int) (fuel : Nat) (h1 : 1 ≤ x) (h2 : x ≤ 51)
    (hfuel : 6 ≤ fuel) :
    task4Search fuel tableau x = Outcome.done (Task4Report.foundAt (some (x - 1))) ∧
    task4 fuel = Outcome.done (Task4Report.foundAt (some 36)) := by
  obtain ⟨extra, rfl⟩ : ∃ extra, fuel = 6 + extra := ⟨fuel - 6, by omega⟩
  constructor
  · apply task4Search_fuel_mono
    interval_cases x <;> rfl
  · exact task4Search_fuel_mono tableau 37 6 extra _ rfl

/-- C1, at the target of the source: `x = 37`, six iterations. -/
theorem task4_present_target_found_witness :
    ((1 : Int) ≤ 37 ∧ (37 : Int) ≤ 51 ∧ 6 ≤ 6) ∧
    task4Search 6 tableau 37 = Outcome.done (Task4Report.foundAt (some (37 - 1))) ∧
    task4 6 = Outcome.done (Task4Report.foundAt (some 36)) :=
  ⟨by decide, task4_present_target_found 37 6 (by decide) (by decide) (by decide)⟩

/-- C2. Task 4, target absent: the code does not report "not found". For the
targets 52 and 0, outside `[1, 51]`, the handler takes the branch of line 256
and prints an `m` that was never assigned; and for no target and no fuel at
all does the handler reach the "La valeur n'est pas dans le tableau" branch of
line 253, because line 242 sets `check = 0` in every iteration. -/
theorem task4_absent_target_not_reported :
    task4Search 6 tableau 52 = Outcome.done (Task4Report.foundAt none) ∧
    task4Search 6 tableau 0 = Outcome.done (Task4Report.foundAt none) ∧
    (∀ (fuel : Nat) (x : Int),
      task4Search fuel tableau x ≠ Outcome.done Task4Report.notFound) := by
  refine ⟨rfl, rfl, ?_⟩
  intro fuel x h
  have hmono := task4Search_fuel_mono tableau x fuel 51 _ h
  obtain ⟨sEnd, -, -, -, hrep⟩ := task4Search_nonempty tableau x (fuel + 51)
    (by decide) (by decide) (by simp [tableau])
  rw [hrep] at hmono
  cases hmono

/-- C8. Task 4 source defect: for every non-empty array (its length fitting the
`int n` of line 230), every target `x` that does not occur in it and enough
fuel, `m` is unassigned in every state in which the loop body is entered and
in the state that leaves the loop, and yet the handler takes the branch of
line 256, which prints `m`. -/
theorem task4_absent_reads_unassigned_m (tableau : List Int) (x : Int) (fuel : Nat)
    (hne : tableau ≠ []) (hlen : (tableau.length : Int) ≤ 2147483647)
    (hx : x ∉ tableau) (hfuel : tableau.length ≤ fuel) :
    (∀ s ∈ searchTrace tableau x fuel
        { low := 0, high := (tableau.length : Int) - 1, check := -1, m := none },
      s.m = none) ∧
    (∃ sEnd, searchLoop tableau x fuel
        { low := 0, high := (tableau.length : Int) - 1, check := -1, m := none } =
          Outcome.done sEnd ∧ sEnd.m = none ∧ sEnd.check ≠ -1) ∧
    task4Search fuel tableau x = Outcome.done (Task4Report.foundAt none) := by
  obtain ⟨sEnd, hrun, hc, hm, hrep⟩ := task4Search_nonempty tableau x fuel hne hlen hfuel
  refine ⟨?_, ⟨sEnd, hrun, hm hx, by rw [hc]; decide⟩, by rw [hrep, hm hx]⟩
  intro s hs
  exact (searchTrace_inv tableau x hlen fuel _ (le_refl _) (by simp) s hs).2.2.2 hx

/-- C8, at the array `[10, 20, 30]` and the absent target 25. -/
theorem task4_absent_reads_unassigned_m_witness :
    (([10, 20, 30] : List Int) ≠ [] ∧ (([10, 20, 30] : List Int).length : Int) ≤ 2147483647 ∧
      (25 : Int) ∉ ([10, 20, 30] : List Int) ∧ ([10, 20, 30] : List Int).length ≤ 3) ∧
    ((∀ s ∈ searchTrace [10, 20, 30] 25 3
        { low := 0, high := (([10, 20, 30] : List Int).length : Int) - 1, check := -1,
          m := none },
      s.m = none) ∧
    (∃ sEnd, searchLoop [10, 20, 30] 25 3
        { low := 0, high := (([10, 20, 30] : List Int).length : Int) - 1, check := -1,
          m := none } =
          Outcome.done sEnd ∧ sEnd.m = none ∧ sEnd.check ≠ -1) ∧
    task4Search 3 [10, 20, 30] 25 = Outcome.done (Task4Report.foundAt none)) :=
  ⟨by decide, task4_absent_reads_unassigned_m [10, 20, 30] 25 3 (by decide) (by decide)
    (by decide) (by decide)⟩

/-- C9. Task 4 loop termination: for every array (any length, any content) and
every target, (1) each completed iteration entered with `low ≤ high` strictly
decreases `high - low`; (2) in an iteration that reads the target itself the
loop does not exit but executes `high = milieu - 1`; (3) started with
`low = 0`, `high = n - 1`, the loop does not run out of a fuel of `n`
iterations or more; and (4) when `n` fits the `int` of line 230 the loop ends
normally, in a state with `high < low`. -/
theorem task4_loop_terminates (tableau : List Int) (x : Int) (fuel : Nat)
    (hfuel : tableau.length ≤ fuel) :
    (∀ s s' : SearchState, s.low ≤ s.high → loopBody tableau x s = some s' →
      s'.high - s'.low < s.high - s.low) ∧
    (∀ s s' : SearchState, loopBody tableau x s = some s' →
      readInt tableau (milieuOf s) = some x →
      s'.low = s.low ∧ s'.high = milieuOf s - 1) ∧
    (∀ (c : Int) (m : Option Int),
      searchLoop tableau x fuel
        { low := 0, high := (tableau.length : Int) - 1, check := c, m := m } ≠
          Outcome.outOfFuel) ∧
    ((tableau.length : Int) ≤ 2147483647 → ∀ (c : Int) (m : Option Int),
      ∃ sEnd, searchLoop tableau x fuel
        { low := 0, high := (tableau.length : Int) - 1, check := c, m := m } =
          Outcome.done sEnd ∧ sEnd.high < sEnd.low) := by
  refine ⟨fun s s' hg hb => loopBody_decreases tableau x s s' hg hb, ?_, ?_, ?_⟩
  · intro s s' hb hr
    obtain ⟨a, b, -⟩ := loopBody_on_match tableau x s s' hb hr
    exact ⟨a, b⟩
  · intro c m
    exact searchLoop_ne_outOfFuel tableau x fuel _ (by simp only; omega)
  · intro hlen c m
    obtain ⟨sEnd, hrun, hend, -⟩ := searchLoop_spec tableau x hlen fuel
      { low := 0, high := (tableau.length : Int) - 1, check := c, m := m }
      (le_refl _) (by simp) (by simp only; omega)
    exact ⟨sEnd, hrun, hend⟩

/-- C9, at the array and the target of the source, with 51 iterations of
fuel. -/
theorem task4_loop_terminates_witness :
    tableau.length ≤ 51 ∧
    ((∀ s s' : SearchState, s.low ≤ s.high → loopBody tableau 37 s = some s' →
      s'.high - s'.low < s.high - s.low) ∧
    (∀ s s' : SearchState, loopBody tableau 37 s = some s' →
      readInt tableau (milieuOf s) = some 37 →
      s'.low = s.low ∧ s'.high = milieuOf s - 1) ∧
    (∀ (c : Int) (m : Option Int),
      searchLoop tableau 37 51
        { low := 0, high := (tableau.length : Int) - 1, check := c, m := m } ≠
          Outcome.outOfFuel) ∧
    ((tableau.length : Int) ≤ 2147483647 → ∀ (c : Int) (m : Option Int),
      ∃ sEnd, searchLoop tableau 37 51
        { low := 0, high := (tableau.length : Int) - 1, check := c, m := m } =
          Outcome.done sEnd ∧ sEnd.high < sEnd.low)) :=
  ⟨by decide, task4_loop_terminates tableau 37 51 (by decide)⟩

/-- C10. Task 4 index safety: for every array whose length `n` fits an `int`
(`n ≤ 2^31 - 1`; the case `n = 0`, in which the body is never entered, is
included), every content and every target: in every state in which the loop
body is entered, `0 ≤ low ≤ milieu ≤ high ≤ n - 1`, the read `tableau[milieu]`
is in bounds, each of `high - low`, `(high - low) / 2` and
`low + (high - low) / 2` lies in the range of a 32-bit signed `int`, and the
body completes without undefined behaviour; and with a fuel of `n` iterations
the whole handler ends with a report. -/
theorem task4_reads_in_bounds (tableau : List Int) (x : Int) (fuel : Nat)
    (hlen : (tableau.length : Int) ≤ 2147483647) :
    (∃ s0, searchInit tableau = some s0 ∧ s0.low = 0 ∧ s0.high = (tableau.length : Int) - 1 ∧
      ∀ s ∈ searchTrace tableau x fuel s0,
        (0 ≤ s.low ∧ s.low ≤ milieuOf s ∧ milieuOf s ≤ s.high ∧
          s.high ≤ (tableau.length : Int) - 1) ∧
        (∃ t, readInt tableau (milieuOf s) = some t) ∧
        (-2147483648 ≤ s.high - s.low ∧ s.high - s.low ≤ 2147483647) ∧
        (-2147483648 ≤ Int.tdiv (s.high - s.low) 2 ∧
          Int.tdiv (s.high - s.low) 2 ≤ 2147483647) ∧
        (-2147483648 ≤ s.low + Int.tdiv (s.high - s.low) 2 ∧
          s.low + Int.tdiv (s.high - s.low) 2 ≤ 2147483647) ∧
        (∃ s', loopBody tableau x s = some s')) ∧
    (tableau.length ≤ fuel → ∃ r, task4Search fuel tableau x = Outcome.done r) := by
  constructor
  · refine ⟨_, searchInit_eq tableau hlen, rfl, rfl, ?_⟩
    intro s hs
    obtain ⟨h0, hg, hh, -⟩ :=
      searchTrace_inv tableau x hlen fuel _ (le_refl _) (by simp) s hs
    have hd : Int.tdiv (s.high - s.low) 2 = (s.high - s.low) / 2 :=
      tdiv_two_of_nonneg (by omega)
    have hm : milieuOf s = s.low + (s.high - s.low) / 2 := by
      unfold milieuOf; rw [hd]
    obtain ⟨t, s', hr, -, hb, -⟩ := loopBody_spec tableau x s hlen h0 hg hh
    refine ⟨⟨h0, by omega, by omega, by omega⟩, ⟨t, hr⟩, ⟨by omega, by omega⟩,
      ⟨by omega, by omega⟩, ⟨by omega, by omega⟩, ⟨s', hb⟩⟩
  · intro hfuel
    obtain ⟨sEnd, hrun, -⟩ := searchLoop_spec tableau x hlen fuel
      { low := 0, high := (tableau.length : Int) - 1, check := -1, m := none }
      (le_refl _) (by simp) (by simp only; omega)
    refine ⟨searchReport sEnd, ?_⟩
    unfold task4Search
    rw [searchInit_eq tableau hlen]
    simp only [hrun]

/-- C10, at the array and the target of the source, with 51 iterations of
fuel. -/
theorem task4_reads_in_bounds_witness :
    (tableau.length : Int) ≤ 2147483647 ∧
    ((∃ s0, searchInit tableau = some s0 ∧ s0.low = 0 ∧ s0.high = (tableau.length : Int) - 1 ∧
      ∀ s ∈ searchTrace tableau 37 51 s0,
        (0 ≤ s.low ∧ s.low ≤ milieuOf s ∧ milieuOf s ≤ s.high ∧
          s.high ≤ (tableau.length : Int) - 1) ∧
        (∃ t, readInt tableau (milieuOf s) = some t) ∧
        (-2147483648 ≤ s.high - s.low ∧ s.high - s.low ≤ 2147483647) ∧
        (-2147483648 ≤ Int.tdiv (s.high - s.low) 2 ∧
          Int.tdiv (s.high - s.low) 2 ≤ 2147483647) ∧
        (-2147483648 ≤ s.low + Int.tdiv (s.high - s.low) 2 ∧
          s.low + Int.tdiv (s.high - s.low) 2 ≤ 2147483647) ∧
        (∃ s', loopBody tableau 37 s = some s')) ∧
    (tableau.length ≤ 51 → ∃ r, task4Search 51 tableau 37 = Outcome.done r)) :=
  ⟨by decide, task4_reads_in_bounds tableau 37 51 (by decide)⟩

/-! ## Task 3 -/

/-- C3. Task 3: with a 64-bit `long int` the product of line 222 is the exact
product 201332668585250232, without overflow: it lies in
`[-2^63, 2^63 - 1]`; it does not fit a 32-bit integer, for which the same
multiplication overflows. -/
theorem task3_product_exact :
    task3Multiply 64 = some 201332668585250232 ∧
    (642837192 : Int) * 313193871 = 201332668585250232 ∧
    (signedMin 64 ≤ 201332668585250232 ∧ (201332668585250232 : Int) ≤ signedMax 64) ∧
    signedMin 64 = -(2 : Int) ^ 63 ∧ signedMax 64 = (2 : Int) ^ 63 - 1 ∧
    signedMax 32 < 201332668585250232 ∧
    task3Multiply 32 = none := by
  refine ⟨?_, by norm_num, ⟨?_, ?_⟩, ?_, ?_, ?_, ?_⟩
  · norm_num [task3Multiply, checked, signedMin, signedMax]
  · norm_num [signedMin]
  · norm_num [signedMax]
  · norm_num [signedMin]
  · norm_num [signedMax]
  · norm_num [signedMax]
  · norm_num [task3Multiply, checked, signedMin, signedMax]

/-! ## The dispatcher -/

theorem receiveTask_handlers :
    ∀ (msgs : List Nat) (s : ReceiveTaskState),
      (receiveTask s msgs).2 = msgs.map selectHandler := by
  intro msgs
  induction msgs with
  | nil => intro s; rfl
  | cons v rest ih =>
    intro s
    simp [receiveTask, receiveIteration, ih]

/-- C4. Dispatcher routing: for every received value `v` (every natural
number, hence every 32-bit value) and every state of the dispatcher, one
iteration runs exactly one handler, `selectHandler v`, which is Task1 for 100,
Task2 for 200, Task3 for 300, Task4 for 400, the timer handler for 10 and the
"Unexpected message" handler for every other value; the handlers run on a
sequence of messages are those of the messages one by one, so the handler of
a message depends neither on the state in which the dispatcher is nor on the
messages received before. -/
theorem dispatcher_routes_by_value_alone :
    (∀ (s : ReceiveTaskState) (v : Nat), (receiveIteration s v).2 = [selectHandler v]) ∧
    selectHandler 100 = Handler.task1Working ∧
    selectHandler 200 = Handler.task2Conversion ∧
    selectHandler 300 = Handler.task3Multiplication ∧
    selectHandler 400 = Handler.task4Search ∧
    selectHandler 10 = Handler.timerHyperPeriod ∧
    (∀ v : Nat, v ≠ 100 → v ≠ 200 → v ≠ 300 → v ≠ 400 → v ≠ 10 →
      selectHandler v = Handler.unexpectedMessage) ∧
    (∀ v : Nat, selectHandler v = Handler.unexpectedMessage →
      v ≠ 100 ∧ v ≠ 200 ∧ v ≠ 300 ∧ v ≠ 400 ∧ v ≠ 10) ∧
    (∀ (s : ReceiveTaskState) (msgs : List Nat),
      (receiveTask s msgs).2 = msgs.map selectHandler) ∧
    (∀ (s s' : ReceiveTaskState) (earlier earlier' : List Nat) (v : Nat),
      (receiveIteration (receiveTask s earlier).1 v).2 =
        (receiveIteration (receiveTask s' earlier').1 v).2) := by
  refine ⟨fun _ _ => rfl, rfl, rfl, rfl, rfl, rfl, ?_, ?_,
    fun s msgs => receiveTask_handlers msgs s, fun _ _ _ _ _ => rfl⟩
  · intro v h1 h2 h3 h4 h5
    simp [selectHandler, mainVALUE_SENT_FROM_TASK1, mainVALUE_SENT_FROM_TASK2,
      mainVALUE_SENT_FROM_TASK3, mainVALUE_SENT_FROM_TASK4, mainVALUE_SENT_FROM_TIMER,
      h1, h2, h3, h4, h5]
  · intro v hv
    refine ⟨?_, ?_, ?_, ?_, ?_⟩ <;> rintro rfl <;> exact absurd hv (by decide)

/-! ## The producers -/

/-- C5. Drift-free periodicity: for each of the four producers, on a `w`-bit
tick counter, with any conversion of milliseconds to ticks and any start tick
`t0`, the absolute wake time requested in the `n`-th iteration, `n ≥ 1`, is
`(t0 + n * P) mod 2^w`, `P` being the period of the producer, whatever the
tick counts at which the iterations run and whatever the content of the queue
at each send (so whether or not earlier sends were dropped). -/
theorem producer_wake_drift_free (w : Nat) (pdMS_TO_TICKS : Nat → Nat) (t0 : Nat)
    (envs : List IterationEnv) (n : Nat) (h1 : 1 ≤ n) (h2 : n ≤ envs.length) :
    ((prvQueueSendTask1 w pdMS_TO_TICKS t0 envs).map ProducerEvent.requestedWake)[n - 1]? =
      some ((t0 + n * mainTASK1_SEND_FREQUENCY_MS pdMS_TO_TICKS) % 2 ^ w) ∧
    ((prvQueueSendTask2 w pdMS_TO_TICKS t0 envs).map ProducerEvent.requestedWake)[n - 1]? =
      some ((t0 + n * mainTASK2_SEND_FREQUENCY_MS pdMS_TO_TICKS) % 2 ^ w) ∧
    ((prvQueueSendTask3 w pdMS_TO_TICKS t0 envs).map ProducerEvent.requestedWake)[n - 1]? =
      some ((t0 + n * mainTASK3_SEND_FREQUENCY_MS pdMS_TO_TICKS) % 2 ^ w) ∧
    ((prvQueueSendTask4 w pdMS_TO_TICKS t0 envs).map ProducerEvent.requestedWake)[n - 1]? =
      some ((t0 + n * mainTASK4_SEND_FREQUENCY_MS pdMS_TO_TICKS) % 2 ^ w) := by
  have hn : n - 1 + 1 = n := by omega
  have key : ∀ P tag : Nat,
      ((producerLoop w P tag t0 envs).map ProducerEvent.requestedWake)[n - 1]? =
        some ((t0 + n * P) % 2 ^ w) := by
    intro P tag
    rw [producerLoop_wake w P tag envs t0 (n - 1) (by omega), hn]
  exact ⟨key _ _, key _ _, key _ _, key _ _⟩

/-- C5, on a 32-bit tick counter with one tick per millisecond, started 296
ticks before the counter wraps, third iteration, the queue being full at the
first send (which is dropped) and empty at the others. -/
theorem producer_wake_drift_free_witness :
    (1 ≤ 3 ∧ 3 ≤ ([⟨4294967000, [10, 100, 200, 300, 400]⟩, ⟨4294967999, []⟩,
        ⟨5000, []⟩] : List IterationEnv).length) ∧
    (((prvQueueSendTask1 32 id 4294967000
        [⟨4294967000, [10, 100, 200, 300, 400]⟩, ⟨4294967999, []⟩, ⟨5000, []⟩]).map
          ProducerEvent.requestedWake)[3 - 1]? =
      some ((4294967000 + 3 * mainTASK1_SEND_FREQUENCY_MS id) % 2 ^ 32) ∧
    ((prvQueueSendTask2 32 id 4294967000
        [⟨4294967000, [10, 100, 200, 300, 400]⟩, ⟨4294967999, []⟩, ⟨5000, []⟩]).map
          ProducerEvent.requestedWake)[3 - 1]? =
      some ((4294967000 + 3 * mainTASK2_SEND_FREQUENCY_MS id) % 2 ^ 32) ∧
    ((prvQueueSendTask3 32 id 4294967000
        [⟨4294967000, [10, 100, 200, 300, 400]⟩, ⟨4294967999, []⟩, ⟨5000, []⟩]).map
          ProducerEvent.requestedWake)[3 - 1]? =
      some ((4294967000 + 3 * mainTASK3_SEND_FREQUENCY_MS id) % 2 ^ 32) ∧
    ((prvQueueSendTask4 32 id 4294967000
        [⟨4294967000, [10, 100, 200, 300, 400]⟩, ⟨4294967999, []⟩, ⟨5000, []⟩]).map
          ProducerEvent.requestedWake)[3 - 1]? =
      some ((4294967000 + 3 * mainTASK4_SEND_FREQUENCY_MS id) % 2 ^ 32)) :=
  ⟨by decide, producer_wake_drift_free 32 id 4294967000
    [⟨4294967000, [10, 100, 200, 300, 400]⟩, ⟨4294967999, []⟩, ⟨5000, []⟩] 3
    (by decide) (by decide)⟩

/-! ## Periods and priorities -/

/-- C6. Hyperperiod: with one tick per millisecond the timer period is 2400 and
the producer periods are 350, 350, 600 and 850; of these only 600 divides
2400, so the timer period is not a common multiple of the producer periods
(their least common multiple is 71400), and at the first timer expiry
`t0 + 2400` the producers Task1, Task2 and Task4 started at `t0` are not at
one of their wake times. -/
theorem timer_period_not_hyperperiod :
    xTimerPeriod id = 2400 ∧
    Producer.all.map (Producer.period id) = [350, 350, 600, 850] ∧
    ¬ (Producer.period id Producer.task1 ∣ xTimerPeriod id) ∧
    ¬ (Producer.period id Producer.task2 ∣ xTimerPeriod id) ∧
    Producer.period id Producer.task3 ∣ xTimerPeriod id ∧
    ¬ (Producer.period id Producer.task4 ∣ xTimerPeriod id) ∧
    (∀ t0 : Nat, ¬ isWakeTime (Producer.period id Producer.task1) t0
      (t0 + 1 * xTimerPeriod id)) ∧
    (∀ t0 : Nat, ¬ isWakeTime (Producer.period id Producer.task2) t0
      (t0 + 1 * xTimerPeriod id)) ∧
    (∀ t0 : Nat, ¬ isWakeTime (Producer.period id Producer.task4) t0
      (t0 + 1 * xTimerPeriod id)) ∧
    (Producer.all.map (Producer.period id)).foldr Nat.lcm 1 = 71400 := by
  refine ⟨rfl, rfl, by decide, by decide, by decide, by decide, ?_, ?_, ?_, by decide⟩
  · rintro t0 ⟨n, -, h⟩
    simp only [Producer.period, xTimerPeriod, mainTASK1_SEND_FREQUENCY_MS,
      mainTIMER_SEND_FREQUENCY_MS, id] at h
    omega
  · rintro t0 ⟨n, -, h⟩
    simp only [Producer.period, xTimerPeriod, mainTASK2_SEND_FREQUENCY_MS,
      mainTIMER_SEND_FREQUENCY_MS, id] at h
    omega
  · rintro t0 ⟨n, -, h⟩
    simp only [Producer.period, xTimerPeriod, mainTASK4_SEND_FREQUENCY_MS,
      mainTIMER_SEND_FREQUENCY_MS, id] at h
    omega

/-- C7, as stated, fails: Task2 has a strictly shorter period (350) than Task3
(600) and is created with the lower priority (2 against 3), so it is not true
that the producer with the strictly shorter period always has the strictly
higher priority. -/
theorem shorter_period_higher_priority_fails :
    (Producer.period id Producer.task2 < Producer.period id Producer.task3 ∧
      ¬ (Producer.priority 0 Producer.task3 < Producer.priority 0 Producer.task2)) ∧
    ¬ (∀ p q : Producer, Producer.period id p < Producer.period id q →
        Producer.priority 0 q < Producer.priority 0 p) :=
  ⟨⟨by decide, by decide⟩,
    fun h => absurd (h Producer.task2 Producer.task3 (by decide)) (by decide)⟩

/-- C7, amended: for any idle priority and any monotone conversion of
milliseconds to ticks, the four producers are created, in source order, with
the priorities idle+1, idle+2, idle+3, idle+4, which strictly increase from
Task1 to Task4 (also between Task1 and Task2, whose periods are equal); their
periods are those of 350, 350, 600 and 850 milliseconds; and of two producers
the one with the strictly shorter period is created with the strictly lower
priority. -/
theorem shorter_period_lower_priority (tskIDLE_PRIORITY : Nat) (pdMS_TO_TICKS : Nat → Nat)
    (hmono : Monotone pdMS_TO_TICKS) :
    Producer.all.map (Producer.priority tskIDLE_PRIORITY) =
      [tskIDLE_PRIORITY + 1, tskIDLE_PRIORITY + 2, tskIDLE_PRIORITY + 3,
        tskIDLE_PRIORITY + 4] ∧
    (Producer.priority tskIDLE_PRIORITY Producer.task1 <
        Producer.priority tskIDLE_PRIORITY Producer.task2 ∧
      Producer.priority tskIDLE_PRIORITY Producer.task2 <
        Producer.priority tskIDLE_PRIORITY Producer.task3 ∧
      Producer.priority tskIDLE_PRIORITY Producer.task3 <
        Producer.priority tskIDLE_PRIORITY Producer.task4) ∧
    Producer.all.map (Producer.period pdMS_TO_TICKS) =
      [pdMS_TO_TICKS 350, pdMS_TO_TICKS 350, pdMS_TO_TICKS 600, pdMS_TO_TICKS 850] ∧
    (∀ p q : Producer, Producer.period pdMS_TO_TICKS p < Producer.period pdMS_TO_TICKS q →
      Producer.priority tskIDLE_PRIORITY p < Producer.priority tskIDLE_PRIORITY q) := by
  have m1 : pdMS_TO_TICKS 350 ≤ pdMS_TO_TICKS 600 := hmono (by norm_num)
  have m2 : pdMS_TO_TICKS 350 ≤ pdMS_TO_TICKS 850 := hmono (by norm_num)
  have m3 : pdMS_TO_TICKS 600 ≤ pdMS_TO_TICKS 850 := hmono (by norm_num)
  refine ⟨rfl, ⟨?_, ?_, ?_⟩, rfl, ?_⟩
  · simp only [Producer.priority, mainQUEUE_SEND_TASK1_PRIORITY,
      mainQUEUE_SEND_TASK2_PRIORITY]
    omega
  · simp only [Producer.priority, mainQUEUE_SEND_TASK2_PRIORITY,
      mainQUEUE_SEND_TASK3_PRIORITY]
    omega
  · simp only [Producer.priority, mainQUEUE_SEND_TASK3_PRIORITY,
      mainQUEUE_SEND_TASK4_PRIORITY]
    omega
  · intro p q hpq
    cases p <;> cases q <;>
      simp only [Producer.period, Producer.priority, mainTASK1_SEND_FREQUENCY_MS,
        mainTASK2_SEND_FREQUENCY_MS, mainTASK3_SEND_FREQUENCY_MS,
        mainTASK4_SEND_FREQUENCY_MS, mainQUEUE_SEND_TASK1_PRIORITY,
        mainQUEUE_SEND_TASK2_PRIORITY, mainQUEUE_SEND_TASK3_PRIORITY,
        mainQUEUE_SEND_TASK4_PRIORITY] at hpq ⊢ <;>
      omega

/-- C7, amended, at one tick per millisecond and idle priority 0: priorities
1, 2, 3, 4 and periods 350, 350, 600, 850. -/
theorem shorter_period_lower_priority_witness :
    Monotone (id : Nat → Nat) ∧
    (Producer.all.map (Producer.priority 0) = [0 + 1, 0 + 2, 0 + 3, 0 + 4] ∧
    (Producer.priority 0 Producer.task1 < Producer.priority 0 Producer.task2 ∧
      Producer.priority 0 Producer.task2 < Producer.priority 0 Producer.task3 ∧
      Producer.priority 0 Producer.task3 < Producer.priority 0 Producer.task4) ∧
    Producer.all.map (Producer.period id) = [id 350, id 350, id 600, id 850] ∧
    (∀ p q : Producer, Producer.period id p < Producer.period id q →
      Producer.priority 0 p < Producer.priority 0 q)) :=
  ⟨monotone_id, shorter_period_lower_priority 0 id monotone_id⟩

end IpsaSched

